import Mathlib

/-!
Verification development for `bin/sam-translate.py`, a CLI shell that converts
SAM templates to CloudFormation templates by delegating to the external
`samtranslator` library and to an external `aws` CLI child process.

The script is embedded shallowly:

* pure helpers (path construction, argument lists, the `json.dumps` serializer
  with its `indent` parameter, the `functools.reduce` error-message fold)
  become Lean functions;
* the external collaborators (the `aws` child process, `yaml_parse`, the
  transformation engine `transform`) become fields of an `Env` record, since
  their code is not part of this file;
* the file system is an explicit association list from path to content,
  threaded through the interpreter; child-process file effects are outside
  the model (the shell itself only writes via `write_text`);
* `sys.exit(n)` and uncaught Python exceptions become an `ExitStatus` value
  returned by the interpreter `runMain`, which mirrors the `__main__` block.
-/

set_option autoImplicit false

namespace SamTranslate

/-! ## JSON documents and the `json.dumps(_, indent=w)` serializer -/

/-- In-memory template document: the tree shape shared by the parsed YAML
input and the transformed CloudFormation output (mapping / sequence / scalar
nodes, with insertion-ordered mappings as in Python dicts). -/
inductive Json where
  | null
  | bool (b : Bool)
  | num (n : Int)
  | str (s : String)
  | arr (elems : List Json)
  | obj (fields : List (String × Json))
deriving Repr

/-- Lower-case hex digit, as produced by Python's JSON encoder. -/
def hexDigit (n : Nat) : Char :=
  if n < 10 then Char.ofNat (48 + n) else Char.ofNat (87 + n)

/-- Four-digit hex rendering used in `\uXXXX` escapes. -/
def hex4 (n : Nat) : String :=
  String.mk [hexDigit (n / 4096 % 16), hexDigit (n / 256 % 16),
             hexDigit (n / 16 % 16), hexDigit (n % 16)]

/-- Escape of one character inside a JSON string literal, following Python's
`json` encoder with its default `ensure_ascii=True`. -/
def escapeChar (c : Char) : String :=
  if c = '"' then "\\\""
  else if c = '\\' then "\\\\"
  else if c = '\n' then "\\n"
  else if c = '\t' then "\\t"
  else if c = '\r' then "\\r"
  else if c.toNat = 8 then "\\b"
  else if c.toNat = 12 then "\\f"
  else if c.toNat < 32 then "\\u" ++ hex4 c.toNat
  else if c.toNat < 127 then String.singleton c
  else if c.toNat < 65536 then "\\u" ++ hex4 c.toNat
  else
    "\\u" ++ hex4 (55296 + (c.toNat - 65536) / 1024) ++
    "\\u" ++ hex4 (56320 + (c.toNat - 65536) % 1024)

/-- JSON string literal rendering. -/
def dumpString (s : String) : String :=
  "\"" ++ String.join (s.data.map escapeChar) ++ "\""

/-- A run of `n` spaces. -/
def spaces (n : Nat) : String :=
  String.mk (List.replicate n ' ')

mutual

/-- `json.dumps(v, indent=w)` at nesting level `lvl`: with a non-`None`
`indent`, Python uses separators `","` and `": "`, puts every item on its own
line indented by `w * level` spaces, and renders empty containers without any
newline. -/
def dumpJson (w lvl : Nat) : Json → String
  | .null => "null"
  | .bool b => if b then "true" else "false"
  | .num n => toString n
  | .str s => dumpString s
  | .arr [] => "[]"
  | .arr (x :: xs) =>
      "[\n" ++ spaces (w * (lvl + 1)) ++ dumpJson w (lvl + 1) x ++
      dumpArrTail w lvl xs ++ "\n" ++ spaces (w * lvl) ++ "]"
  | .obj [] => "\x7b\x7d"
  | .obj ((k, v) :: kvs) =>
      "\x7b\n" ++ spaces (w * (lvl + 1)) ++ dumpString k ++ ": " ++
      dumpJson w (lvl + 1) v ++ dumpObjTail w lvl kvs ++ "\n" ++
      spaces (w * lvl) ++ "\x7d"

/-- Remaining array items, each preceded by `",\n"` and its indentation. -/
def dumpArrTail (w lvl : Nat) : List Json → String
  | [] => ""
  | x :: xs =>
      ",\n" ++ spaces (w * (lvl + 1)) ++ dumpJson w (lvl + 1) x ++
      dumpArrTail w lvl xs

/-- Remaining object entries, each preceded by `",\n"` and its indentation. -/
def dumpObjTail (w lvl : Nat) : List (String × Json) → String
  | [] => ""
  | (k, v) :: kvs =>
      ",\n" ++ spaces (w * (lvl + 1)) ++ dumpString k ++ ": " ++
      dumpJson w (lvl + 1) v ++ dumpObjTail w lvl kvs

end

/-! ## File system -/

/-- File system contents: association list from path to file content. -/
abbrev Files := List (String × String)

/-- Content at a path, if the file exists. -/
def lookupFile : Files → String → Option String
  | [], _ => none
  | (p, c) :: rest, q => if p = q then some c else lookupFile rest q

/-- `Path.write_text`: create the file or fully overwrite its content. -/
def writeFile : Files → String → String → Files
  | [], path, content => [(path, content)]
  | (p, c) :: rest, path, content =>
      if p = path then (path, content) :: rest
      else (p, c) :: writeFile rest path content

/-! ## Command-line option parsing

The `argparse` configuration of the script: one optional positional
`command`, path options `--template-file` (default `template.yaml`) and
`--output-template` (default `transformed-template.json`), plain string
options `--s3-bucket`, `--capabilities`, `--stack-name`, and the boolean
flag `--verbose` (`action="store_true"`). The embedding models the exact
long option names with space-separated values; a token starting with `-`
is never consumed as an option value and an unrecognized option or a second
positional is a usage error (`none`), as in `argparse`. -/

/-- Resolved CLI options (`cli_options` in the script). -/
structure Options where
  command : Option String
  template_file : String
  output_template : String
  s3_bucket : Option String
  capabilities : Option String
  stack_name : Option String
  verbose : Bool
deriving Repr, DecidableEq

/-- The defaults declared on the `argparse` parser. -/
def defaultOptions : Options :=
  { command := none
    template_file := "template.yaml"
    output_template := "transformed-template.json"
    s3_bucket := none
    capabilities := none
    stack_name := none
    verbose := false }

/-- Which value-taking option is waiting for its argument token. -/
inductive Pending where
  | tf | ot | s3 | cap | sn
deriving Repr, DecidableEq

/-- Store a value token into the field of the pending option. -/
def applyPending (p : Pending) (v : String) (o : Options) : Options :=
  match p with
  | .tf => { o with template_file := v }
  | .ot => { o with output_template := v }
  | .s3 => { o with s3_bucket := some v }
  | .cap => { o with capabilities := some v }
  | .sn => { o with stack_name := some v }

/-- Whether a token is option-like: its first character is a dash. -/
def startsWithDash (s : String) : Bool :=
  s.data.head? = some '-'

/-- Token-by-token argument scan; `none` is an `argparse` usage error. -/
def parseLoop : List String → Option Pending → Options → Option Options
  | [], pend, o =>
      match pend with
      | some _ => none
      | none => some o
  | tok :: rest, pend, o =>
      match pend with
      | some p =>
          if startsWithDash tok then none
          else parseLoop rest none (applyPending p tok o)
      | none =>
          if tok = "--template-file" then parseLoop rest (some .tf) o
          else if tok = "--output-template" then parseLoop rest (some .ot) o
          else if tok = "--s3-bucket" then parseLoop rest (some .s3) o
          else if tok = "--capabilities" then parseLoop rest (some .cap) o
          else if tok = "--stack-name" then parseLoop rest (some .sn) o
          else if tok = "--verbose" then parseLoop rest none { o with verbose := true }
          else if startsWithDash tok then none
          else
            match o.command with
            | none => parseLoop rest none { o with command := some tok }
            | some _ => none

/-- `parser.parse_args(argv)`. -/
def parse_args (argv : List String) : Option Options :=
  parseLoop argv none defaultOptions

/-! ## External collaborators -/

/-- `InvalidDocumentException`: a top-level message plus the ordered messages
of the causes (`e.message`, `cause.message for cause in e.causes`). -/
structure ValidationError where
  message : String
  causes : List String
deriving Repr, DecidableEq

/-- External collaborators of the shell, fixed for one process run:

* `windows`: whether `platform.system().lower() == "windows"`;
* `run cmdline`: behavior of `subprocess.check_call` on the full command
  line — `none` means the executable could not be launched
  (`FileNotFoundError`), `some r` means the child exited with code `r`;
* `parse content`: `yaml_parse` on the file content — `none` is a YAML
  parse error (raised), `some doc` the parsed document;
* `transform doc`: the `samtranslator` delegate
  `transform(doc, {}, ManagedPolicyLoader(iam_client))` — either the
  expanded CloudFormation document or an `InvalidDocumentException`. -/
structure Env where
  windows : Bool
  run : List (Option String) → Option Int
  parse : String → Option Json
  transform : Json → Except ValidationError Json

/-- Outcome of `execute_command`: normal return, `sys.exit(n)` raised after a
`CalledProcessError`, or an uncaught launch failure (`FileNotFoundError`). -/
inductive ExecResult where
  | ok
  | sysExit (n : Int)
  | envError
deriving Repr, DecidableEq

/-- `aws_cmd = "aws" if platform.system().lower() != "windows" else "aws.cmd"`. -/
def aws_cmd (windows : Bool) : String :=
  if windows then "aws.cmd" else "aws"

/-- `command_with_args = [aws_cmd, "cloudformation", command, *list(args)]`.
Argument tokens are `Option String` because the script can put `None` CLI
options (e.g. an absent `--s3-bucket`) into the list. -/
def command_with_args (windows : Bool) (command : String)
    (args : List (Option String)) : List (Option String) :=
  some (aws_cmd windows) :: some "cloudformation" :: some command :: args

/-- `execute_command(command, args)`: run the child and block; a non-zero
exit raises `CalledProcessError`, caught and turned into
`sys.exit(e.returncode)`; a launch failure is not caught and propagates. -/
def execute_command (env : Env) (command : String)
    (args : List (Option String)) : ExecResult :=
  match env.run (command_with_args env.windows command args) with
  | none => .envError
  | some r => if r = 0 then .ok else .sysExit r

/-! ## The three stages -/

/-- `package_output_template_file = Path(str(input_file_path) + "._sam_packaged_.yaml")`. -/
def packageOutputPath (input_file_path : String) : String :=
  input_file_path ++ "._sam_packaged_.yaml"

/-- The argument list built by `package`. -/
def packageArgs (opts : Options) (input_file_path : String) : List (Option String) :=
  [some "--template-file", some input_file_path,
   some "--output-template-file", some (packageOutputPath input_file_path),
   some "--s3-bucket", opts.s3_bucket]

/-- The argument list built by `deploy`. -/
def deployArgs (opts : Options) (template_file : String) : List (Option String) :=
  [some "--template-file", some template_file,
   some "--capabilities", opts.capabilities,
   some "--stack-name", opts.stack_name]

/-- One emitted log record. `LOG.error(error_message)` logs a string;
the subsequent `LOG.error(errors)` logs the generator object built over the
cause messages. -/
inductive LogEntry where
  | error (s : String)
  | errorObj (causes : List String)
deriving Repr, DecidableEq

/-- An uncaught Python exception that terminates the process with a
traceback (and hence a non-zero exit status). -/
inductive PyError where
  | fileNotFound (path : String)
  | yamlParseError (path : String)
  | execLaunchFailure
deriving Repr, DecidableEq

/-- How the process terminates: falling off the end of `__main__` (exit
status 0), an explicit `sys.exit(n)`, or an uncaught exception. -/
inductive ExitStatus where
  | ok
  | code (n : Int)
  | exn (e : PyError)
deriving Repr, DecidableEq

/-- A stage function invocation, recorded with its arguments. -/
inductive StageCall where
  | packaging (templateFile outPath : String) (bucket : Option String)
  | transforming (input output : String)
  | deploying (templateFile : String) (capabilities stackName : Option String)
deriving Repr, DecidableEq

/-- Result of `transform_template`: updated file system, log records,
`print` output, and an uncaught exception if one was raised. -/
structure TTResult where
  fs : Files
  logs : List LogEntry
  printed : List String
  halt : Option PyError
deriving Repr, DecidableEq

/-- `transform_template(input_file_path, output_file_path)`: open and parse
the input; on success of the delegate, `json.dumps(_, indent=1)` the result
and `write_text` it to the output path, then print a confirmation; on
`InvalidDocumentException`, fold the cause messages onto the top-level
message with single spaces (`functools.reduce`), log it, log the generator
of cause messages, and return normally without writing. Opening a missing
file or a YAML parse error raises out of the function. -/
def transform_template (env : Env) (fs : Files)
    (input_file_path output_file_path : String) : TTResult :=
  match lookupFile fs input_file_path with
  | none => ⟨fs, [], [], some (.fileNotFound input_file_path)⟩
  | some content =>
      match env.parse content with
      | none => ⟨fs, [], [], some (.yamlParseError input_file_path)⟩
      | some sam_template =>
          match env.transform sam_template with
          | .ok cloud_formation_template =>
              let prettified := dumpJson 1 0 cloud_formation_template
              ⟨writeFile fs output_file_path prettified, [],
               ["Wrote transformed CloudFormation template to: " ++ " " ++
                output_file_path], none⟩
          | .error e =>
              let error_message :=
                e.causes.foldl (fun message error => message ++ " " ++ error)
                  e.message
              ⟨fs, [.error error_message, .errorObj e.causes], [], none⟩

/-- Process exit status when a called function returned normally (`none`)
or raised (`some e`). -/
def haltToExit : Option PyError → ExitStatus
  | some e => .exn e
  | none => .ok

/-- Final observable outcome of one process run. -/
structure RunResult where
  fs : Files
  logs : List LogEntry
  printed : List String
  stages : List StageCall
  exit : ExitStatus
deriving Repr, DecidableEq

/-- The `__main__` block: dispatch on `cli_options.command`.

`package` runs `package` then `transform_template`; `deploy` runs both and
then `deploy`; anything else runs `transform_template` directly on the
configured input path. A `sys.exit` or uncaught exception inside a stage
propagates, so later stages never run. The child's own file writes (the
packaged intermediate template) happen outside this model, so `fs` only
reflects writes performed by the shell itself. -/
def runMain (env : Env) (opts : Options) (fs0 : Files) : RunResult :=
  let input_file_path := opts.template_file
  let output_file_path := opts.output_template
  if opts.command = some "package" then
    let outPath := packageOutputPath input_file_path
    let pkgStage := StageCall.packaging input_file_path outPath opts.s3_bucket
    match execute_command env "package" (packageArgs opts input_file_path) with
    | .envError => ⟨fs0, [], [], [pkgStage], .exn .execLaunchFailure⟩
    | .sysExit n => ⟨fs0, [], [], [pkgStage], .code n⟩
    | .ok =>
        let t := transform_template env fs0 outPath output_file_path
        ⟨t.fs, t.logs, t.printed,
         [pkgStage, .transforming outPath output_file_path],
         haltToExit t.halt⟩
  else if opts.command = some "deploy" then
    let outPath := packageOutputPath input_file_path
    let pkgStage := StageCall.packaging input_file_path outPath opts.s3_bucket
    match execute_command env "package" (packageArgs opts input_file_path) with
    | .envError => ⟨fs0, [], [], [pkgStage], .exn .execLaunchFailure⟩
    | .sysExit n => ⟨fs0, [], [], [pkgStage], .code n⟩
    | .ok =>
        let t := transform_template env fs0 outPath output_file_path
        match t.halt with
        | some e =>
            ⟨t.fs, t.logs, t.printed,
             [pkgStage, .transforming outPath output_file_path], .exn e⟩
        | none =>
            let stages :=
              [pkgStage, .transforming outPath output_file_path,
               .deploying output_file_path opts.capabilities opts.stack_name]
            match execute_command env "deploy" (deployArgs opts output_file_path) with
            | .envError => ⟨t.fs, t.logs, t.printed, stages, .exn .execLaunchFailure⟩
            | .sysExit n => ⟨t.fs, t.logs, t.printed, stages, .code n⟩
            | .ok => ⟨t.fs, t.logs, t.printed, stages, .ok⟩
  else
    let t := transform_template env fs0 input_file_path output_file_path
    ⟨t.fs, t.logs, t.printed,
     [.transforming input_file_path output_file_path], haltToExit t.halt⟩

/-- Modelled from the spec: the serialization the spec describes for the
output file, "pretty-printed with stable two-space-equivalent indentation",
i.e. the same JSON layout but with an indent width of two spaces. Used only
to compare the spec's wording against the serialization the code performs. -/
def specTwoSpaceSerialization (d : Json) : String :=
  dumpJson 2 0 d

/-! ## Concrete collaborators and inputs used to exercise the theorems -/

/-- Collaborators where every child call succeeds, parsing yields an empty
mapping and the transformation delegate is the identity. -/
def envOkDoc : Env :=
  { windows := false
    run := fun _ => some 0
    parse := fun _ => some (.obj [])
    transform := fun d => .ok d }

/-- Collaborators where the transformation delegate always raises an
`InvalidDocumentException` with two causes. -/
def envValErr : Env :=
  { windows := false
    run := fun _ => some 0
    parse := fun _ => some (.obj [])
    transform := fun _ => .error ⟨"top", ["c1", "c2"]⟩ }

/-- Collaborators where `yaml_parse` always raises (malformed YAML). -/
def envParseFail : Env :=
  { windows := false
    run := fun _ => some 0
    parse := fun _ => none
    transform := fun d => .ok d }

/-- Collaborators where every child process exits with code 2. -/
def envRunFail2 : Env :=
  { windows := false
    run := fun _ => some 2
    parse := fun _ => some (.obj [])
    transform := fun d => .ok d }

/-- Collaborators where the `aws` executable cannot be launched. -/
def envNoExec : Env :=
  { windows := false
    run := fun _ => none
    parse := fun _ => some (.obj [])
    transform := fun d => .ok d }

/-- Collaborators whose delegate produces a fixed one-entry mapping. -/
def envIndent : Env :=
  { windows := false
    run := fun _ => some 0
    parse := fun _ => some (.obj [])
    transform := fun _ => .ok (.obj [("a", .num 1)]) }

/-- A file system holding only the default input template. -/
def fsBase : Files := [("template.yaml", "Resources:")]

/-- A file system holding the default input template and a stale output. -/
def fsWithOld : Files :=
  [("template.yaml", "Resources:"), ("transformed-template.json", "old")]

/-- A file system holding the packaged intermediate template. -/
def fsDeploy : Files := [("template.yaml._sam_packaged_.yaml", "Resources:")]

/-- The default options with the `package` sub-command selected. -/
def optsPackage : Options := { defaultOptions with command := some "package" }

/-- The default options with the `deploy` sub-command selected. -/
def optsDeploy : Options := { defaultOptions with command := some "deploy" }


/-! ## Helper lemmas -/

theorem applyPending_template_file (p : Pending) (v : String) (o : Options)
    (hp : p ≠ .tf) : (applyPending p v o).template_file = o.template_file := by
  cases p
  case tf => exact absurd rfl hp
  all_goals rfl

theorem applyPending_output_template (p : Pending) (v : String) (o : Options)
    (hp : p ≠ .ot) : (applyPending p v o).output_template = o.output_template := by
  cases p
  case ot => exact absurd rfl hp
  all_goals rfl

theorem applyPending_verbose (p : Pending) (v : String) (o : Options) :
    (applyPending p v o).verbose = o.verbose := by
  cases p <;> rfl

theorem parseLoop_template_file (argv : List String) :
    ∀ (pend : Option Pending) (o o' : Options),
      parseLoop argv pend o = some o' → "--template-file" ∉ argv →
      pend ≠ some .tf → o'.template_file = o.template_file := by
  induction argv with
  | nil =>
      intro pend o o' h _ hp
      cases pend with
      | some p => simp [parseLoop] at h
      | none => simp [parseLoop] at h; rw [← h]
  | cons tok rest ih =>
      intro pend o o' h hmem hp
      rw [List.mem_cons] at hmem
      push_neg at hmem
      obtain ⟨hmem1, hmem2⟩ := hmem
      cases pend with
      | some p =>
          have hptf : p ≠ .tf := fun he => hp (by rw [he])
          simp only [parseLoop] at h
          split at h
          · simp at h
          · have := ih none (applyPending p tok o) o' h hmem2 (by simp)
            rw [this, applyPending_template_file p tok o hptf]
      | none =>
          simp only [parseLoop] at h
          rw [if_neg (Ne.symm hmem1)] at h
          by_cases h2 : tok = "--output-template"
          · rw [if_pos h2] at h
            exact ih (some .ot) o o' h hmem2 (by simp)
          rw [if_neg h2] at h
          by_cases h3 : tok = "--s3-bucket"
          · rw [if_pos h3] at h
            exact ih (some .s3) o o' h hmem2 (by simp)
          rw [if_neg h3] at h
          by_cases h4 : tok = "--capabilities"
          · rw [if_pos h4] at h
            exact ih (some .cap) o o' h hmem2 (by simp)
          rw [if_neg h4] at h
          by_cases h5 : tok = "--stack-name"
          · rw [if_pos h5] at h
            exact ih (some .sn) o o' h hmem2 (by simp)
          rw [if_neg h5] at h
          by_cases h6 : tok = "--verbose"
          · rw [if_pos h6] at h
            exact ih none { o with verbose := true } o' h hmem2 (by simp)
          rw [if_neg h6] at h
          split at h
          · simp at h
          · split at h
            · exact ih none { o with command := some tok } o' h hmem2 (by simp)
            · simp at h


theorem parseLoop_output_template (argv : List String) :
    ∀ (pend : Option Pending) (o o' : Options),
      parseLoop argv pend o = some o' → "--output-template" ∉ argv →
      pend ≠ some .ot → o'.output_template = o.output_template := by
  induction argv with
  | nil =>
      intro pend o o' h _ hp
      cases pend with
      | some p => simp [parseLoop] at h
      | none => simp [parseLoop] at h; rw [← h]
  | cons tok rest ih =>
      intro pend o o' h hmem hp
      rw [List.mem_cons] at hmem
      push_neg at hmem
      obtain ⟨hmem1, hmem2⟩ := hmem
      cases pend with
      | some p =>
          have hpot : p ≠ .ot := fun he => hp (by rw [he])
          simp only [parseLoop] at h
          split at h
          · simp at h
          · have := ih none (applyPending p tok o) o' h hmem2 (by simp)
            rw [this, applyPending_output_template p tok o hpot]
      | none =>
          simp only [parseLoop] at h
          by_cases h1 : tok = "--template-file"
          · rw [if_pos h1] at h
            exact ih (some .tf) o o' h hmem2 (by simp)
          rw [if_neg h1, if_neg (Ne.symm hmem1)] at h
          by_cases h3 : tok = "--s3-bucket"
          · rw [if_pos h3] at h
            exact ih (some .s3) o o' h hmem2 (by simp)
          rw [if_neg h3] at h
          by_cases h4 : tok = "--capabilities"
          · rw [if_pos h4] at h
            exact ih (some .cap) o o' h hmem2 (by simp)
          rw [if_neg h4] at h
          by_cases h5 : tok = "--stack-name"
          · rw [if_pos h5] at h
            exact ih (some .sn) o o' h hmem2 (by simp)
          rw [if_neg h5] at h
          by_cases h6 : tok = "--verbose"
          · rw [if_pos h6] at h
            exact ih none { o with verbose := true } o' h hmem2 (by simp)
          rw [if_neg h6] at h
          split at h
          · simp at h
          · split at h
            · exact ih none { o with command := some tok } o' h hmem2 (by simp)
            · simp at h

theorem parseLoop_verbose (argv : List String) :
    ∀ (pend : Option Pending) (o o' : Options),
      parseLoop argv pend o = some o' → "--verbose" ∉ argv →
      o'.verbose = o.verbose := by
  induction argv with
  | nil =>
      intro pend o o' h _
      cases pend with
      | some p => simp [parseLoop] at h
      | none => simp [parseLoop] at h; rw [← h]
  | cons tok rest ih =>
      intro pend o o' h hmem
      rw [List.mem_cons] at hmem
      push_neg at hmem
      obtain ⟨hmem1, hmem2⟩ := hmem
      cases pend with
      | some p =>
          simp only [parseLoop] at h
          split at h
          · simp at h
          · have := ih none (applyPending p tok o) o' h hmem2
            rw [this, applyPending_verbose p tok o]
      | none =>
          simp only [parseLoop] at h
          by_cases h1 : tok = "--template-file"
          · rw [if_pos h1] at h
            exact ih (some .tf) o o' h hmem2
          rw [if_neg h1] at h
          by_cases h2 : tok = "--output-template"
          · rw [if_pos h2] at h
            exact ih (some .ot) o o' h hmem2
          rw [if_neg h2] at h
          by_cases h3 : tok = "--s3-bucket"
          · rw [if_pos h3] at h
            exact ih (some .s3) o o' h hmem2
          rw [if_neg h3] at h
          by_cases h4 : tok = "--capabilities"
          · rw [if_pos h4] at h
            exact ih (some .cap) o o' h hmem2
          rw [if_neg h4] at h
          by_cases h5 : tok = "--stack-name"
          · rw [if_pos h5] at h
            exact ih (some .sn) o o' h hmem2
          rw [if_neg h5, if_neg (Ne.symm hmem1)] at h
          split at h
          · simp at h
          · split at h
            · exact ih none { o with command := some tok } o' h hmem2
            · simp at h


/-! ## Claims -/

/-- C1: for every input template on which the transformation delegate raises
a validation error, the transform step logs the concatenated error message
(and then the generator of cause messages), writes no output file — the file
system, and in particular any existing file at the output path, is left
unchanged — and the process does not terminate with a non-zero exit code:
under the default sub-command the overall exit status is 0. -/
theorem claim1_validation_error_logged_no_write_exit_zero
    (env : Env) (opts : Options) (fs0 : Files) (content : String)
    (doc : Json) (e : ValidationError)
    (hp : opts.command ≠ some "package") (hd : opts.command ≠ some "deploy")
    (hf : lookupFile fs0 opts.template_file = some content)
    (hparse : env.parse content = some doc)
    (ht : env.transform doc = .error e) :
    runMain env opts fs0 =
      ⟨fs0,
       [.error (e.causes.foldl (fun message error => message ++ " " ++ error)
          e.message), .errorObj e.causes],
       [],
       [.transforming opts.template_file opts.output_template],
       .ok⟩ := by
  simp [runMain, hp, hd, transform_template, hf, hparse, ht, haltToExit]

/-- C1 witness. -/
theorem claim1_witness :
    runMain envValErr defaultOptions fsBase =
      ⟨fsBase, [.error "top c1 c2", .errorObj ["c1", "c2"]], [],
       [.transforming "template.yaml" "transformed-template.json"], .ok⟩ :=
  claim1_validation_error_logged_no_write_exit_zero envValErr defaultOptions
    fsBase "Resources:" (.obj []) ⟨"top", ["c1", "c2"]⟩
    (by decide) (by decide) rfl rfl rfl

/-- C2: for every `package` or `deploy` run whose child packaging process
exits with a non-zero code `n`, the whole process exits with code `n`, the
only stage invoked is Packaging (Transforming and Deploying never run) and
the file system — in particular the configured output template — is neither
created nor modified by the shell. -/
theorem claim2_package_failure_exits_with_child_code
    (env : Env) (opts : Options) (fs0 : Files) (n : Int)
    (hc : opts.command = some "package" ∨ opts.command = some "deploy")
    (hrun : env.run (command_with_args env.windows "package"
        (packageArgs opts opts.template_file)) = some n)
    (hn : n ≠ 0) :
    runMain env opts fs0 =
      ⟨fs0, [], [],
       [.packaging opts.template_file (packageOutputPath opts.template_file)
          opts.s3_bucket],
       .code n⟩ := by
  rcases hc with h | h <;>
    simp [runMain, h, execute_command, hrun, hn]

/-- C2 witness. -/
theorem claim2_witness :
    runMain envRunFail2 optsPackage fsBase =
      ⟨fsBase, [], [],
       [.packaging "template.yaml" "template.yaml._sam_packaged_.yaml" none],
       .code 2⟩ :=
  claim2_package_failure_exits_with_child_code envRunFail2 optsPackage fsBase 2
    (Or.inl rfl) rfl (by decide)

/-- C7: for every malformed (unparseable YAML) input template, the default
sub-command raises out of the parse step before any write: the file system is
returned unchanged (no output file, no partial file), nothing is printed, and
the process dies on the propagated parse error. -/
theorem claim7_parse_error_aborts_before_write
    (env : Env) (opts : Options) (fs0 : Files) (content : String)
    (hp : opts.command ≠ some "package") (hd : opts.command ≠ some "deploy")
    (hf : lookupFile fs0 opts.template_file = some content)
    (hparse : env.parse content = none) :
    runMain env opts fs0 =
      ⟨fs0, [], [],
       [.transforming opts.template_file opts.output_template],
       .exn (.yamlParseError opts.template_file)⟩ := by
  simp [runMain, hp, hd, transform_template, hf, hparse, haltToExit]

/-- C7 witness. -/
theorem claim7_witness :
    runMain envParseFail defaultOptions fsWithOld =
      ⟨fsWithOld, [], [],
       [.transforming "template.yaml" "transformed-template.json"],
       .exn (.yamlParseError "template.yaml")⟩ :=
  claim7_parse_error_aborts_before_write envParseFail defaultOptions fsWithOld
    "Resources:" (by decide) (by decide) rfl rfl

/-- C9: when launching the child process fails because the cloud-CLI
executable is not found, `execute_command` ends in the distinct environment
error (the uncaught `FileNotFoundError`), never in the `sys.exit` outcome
that carries a child return code. -/
theorem claim9_launch_failure_distinct_from_child_exit
    (env : Env) (command : String) (args : List (Option String))
    (h : env.run (command_with_args env.windows command args) = none) :
    execute_command env command args = .envError ∧
    ∀ n : Int, execute_command env command args ≠ .sysExit n := by
  constructor
  · simp [execute_command, h]
  · intro n
    simp [execute_command, h]

/-- C9 witness. -/
theorem claim9_witness :
    execute_command envNoExec "package" [] = .envError ∧
    execute_command envNoExec "package" [] ≠ .sysExit 2 :=
  ⟨(claim9_launch_failure_distinct_from_child_exit envNoExec "package" [] rfl).1,
   (claim9_launch_failure_distinct_from_child_exit envNoExec "package" [] rfl).2 2⟩

/-- C10: for every sub-command string other than exactly `package` or
`deploy`, the whole run is identical to the run with no sub-command at all:
only the Transforming stage runs, directly on the configured input path. -/
theorem claim10_unknown_command_same_as_default
    (env : Env) (opts : Options) (fs0 : Files) (s : String)
    (hc : opts.command = some s)
    (h1 : s ≠ "package") (h2 : s ≠ "deploy") :
    runMain env opts fs0 = runMain env { opts with command := none } fs0 := by
  simp [runMain, hc, h1, h2]

/-- C10 witness: a misspelled sub-command behaves like the default case. -/
theorem claim10_witness :
    runMain envOkDoc { defaultOptions with command := some "Package" } fsBase =
      runMain envOkDoc defaultOptions fsBase :=
  claim10_unknown_command_same_as_default envOkDoc
    { defaultOptions with command := some "Package" } fsBase "Package"
    rfl (by decide) (by decide)


/-- Writing a file makes its content the one found at that path, whether or
not the path existed before. -/
theorem lookupFile_writeFile_self (fs : Files) (p c : String) :
    lookupFile (writeFile fs p c) p = some c := by
  induction fs with
  | nil => simp [writeFile, lookupFile]
  | cons hd rest ih =>
      obtain ⟨q, d⟩ := hd
      by_cases h : q = p
      · subst h
        simp [writeFile, lookupFile]
      · simp [writeFile, lookupFile, h, ih]

/-- C3: the stages executed and their order are exactly determined by the
sub-command — no sub-command runs Transforming only on the configured input;
`package` runs Packaging then Transforming; `deploy` runs Packaging, then
Transforming, then Deploying, where Deploying is invoked with the final
output path and the configured capabilities and stack name. -/
theorem claim3_stage_order (env : Env) (opts : Options) (fs0 : Files) :
    (opts.command ≠ some "package" → opts.command ≠ some "deploy" →
      (runMain env opts fs0).stages =
        [.transforming opts.template_file opts.output_template]) ∧
    (opts.command = some "package" →
      env.run (command_with_args env.windows "package"
        (packageArgs opts opts.template_file)) = some 0 →
      (runMain env opts fs0).stages =
        [.packaging opts.template_file (packageOutputPath opts.template_file)
           opts.s3_bucket,
         .transforming (packageOutputPath opts.template_file)
           opts.output_template]) ∧
    (opts.command = some "deploy" →
      env.run (command_with_args env.windows "package"
        (packageArgs opts opts.template_file)) = some 0 →
      (transform_template env fs0 (packageOutputPath opts.template_file)
        opts.output_template).halt = none →
      (runMain env opts fs0).stages =
        [.packaging opts.template_file (packageOutputPath opts.template_file)
           opts.s3_bucket,
         .transforming (packageOutputPath opts.template_file)
           opts.output_template,
         .deploying opts.output_template opts.capabilities opts.stack_name]) := by
  refine ⟨?_, ?_, ?_⟩
  · intro hp hd
    simp [runMain, hp, hd]
  · intro hc hrun
    simp [runMain, hc, execute_command, hrun]
  · intro hc hrun hhalt
    simp [runMain, hc, execute_command, hrun, hhalt]
    split <;> rfl

/-- C3 witness: a fully successful `deploy` run. -/
theorem claim3_witness :
    (runMain envOkDoc optsDeploy fsDeploy).stages =
      [.packaging "template.yaml" "template.yaml._sam_packaged_.yaml" none,
       .transforming "template.yaml._sam_packaged_.yaml"
         "transformed-template.json",
       .deploying "transformed-template.json" none none] :=
  (claim3_stage_order envOkDoc optsDeploy fsDeploy).2.2 rfl rfl rfl

/-- C4: the Packaging stage passes the external process an output path equal
to the input path with the fixed suffix `._sam_packaged_.yaml` appended —
independent of `--output-template` — and on success that intermediate path
becomes the input of the Transforming stage. -/
theorem claim4_package_intermediate_path (env : Env) (opts : Options)
    (fs0 : Files) (hc : opts.command = some "package") :
    packageArgs opts opts.template_file =
      [some "--template-file", some opts.template_file,
       some "--output-template-file",
       some (opts.template_file ++ "._sam_packaged_.yaml"),
       some "--s3-bucket", opts.s3_bucket] ∧
    (∀ x : String,
      (runMain env { opts with output_template := x } fs0).stages.head? =
        some (.packaging opts.template_file
          (opts.template_file ++ "._sam_packaged_.yaml") opts.s3_bucket)) ∧
    (env.run (command_with_args env.windows "package"
        (packageArgs opts opts.template_file)) = some 0 →
      (runMain env opts fs0).stages =
        [.packaging opts.template_file
           (opts.template_file ++ "._sam_packaged_.yaml") opts.s3_bucket,
         .transforming (opts.template_file ++ "._sam_packaged_.yaml")
           opts.output_template]) := by
  refine ⟨rfl, ?_, ?_⟩
  · intro x
    simp only [runMain]
    rw [if_pos (show ({ opts with output_template := x } : Options).command =
      some "package" from hc)]
    split <;> rfl
  · intro hrun
    simp [runMain, hc, execute_command, hrun, packageOutputPath]

/-- C4 witness: a successful `package` run. -/
theorem claim4_witness :
    (runMain envOkDoc optsPackage fsDeploy).stages =
      [.packaging "template.yaml" "template.yaml._sam_packaged_.yaml" none,
       .transforming "template.yaml._sam_packaged_.yaml"
         "transformed-template.json"] :=
  (claim4_package_intermediate_path envOkDoc optsPackage fsDeploy rfl).2.2 rfl

/-- C5 counterexample: the code serializes with `json.dumps(_, indent=1)`,
one space per level, so on a concrete successful run the content written to
the configured output path is not the two-space-indented serialization the
claim describes. -/
theorem claim5_counterexample :
    lookupFile (runMain envIndent defaultOptions fsWithOld).fs
        "transformed-template.json" =
      some (dumpJson 1 0 (.obj [("a", .num 1)])) ∧
    dumpJson 1 0 (.obj [("a", .num 1)]) ≠
      specTwoSpaceSerialization (.obj [("a", .num 1)]) :=
  ⟨rfl, by decide⟩

/-- C5 (amended): for every successfully transformed document, the output
file written to the configured output path is the JSON serialization of the
transformed document pretty-printed with stable one-space indentation
(`indent=1`), fully overwriting any existing file at that path. -/
theorem claim5_output_written_one_space_overwrite
    (env : Env) (fs : Files) (input output content : String) (doc out : Json)
    (hf : lookupFile fs input = some content)
    (hparse : env.parse content = some doc)
    (ht : env.transform doc = .ok out) :
    (transform_template env fs input output).fs =
      writeFile fs output (dumpJson 1 0 out) ∧
    lookupFile (transform_template env fs input output).fs output =
      some (dumpJson 1 0 out) := by
  have h1 : (transform_template env fs input output).fs =
      writeFile fs output (dumpJson 1 0 out) := by
    simp [transform_template, hf, hparse, ht]
  exact ⟨h1, by rw [h1, lookupFile_writeFile_self]⟩

/-- C5 witness: the stale output file is overwritten with the one-space
serialization. -/
theorem claim5_witness :
    lookupFile (transform_template envIndent fsWithOld "template.yaml"
        "transformed-template.json").fs "transformed-template.json" =
      some (dumpJson 1 0 (.obj [("a", .num 1)])) :=
  (claim5_output_written_one_space_overwrite envIndent fsWithOld
    "template.yaml" "transformed-template.json" "Resources:" (.obj [])
    (.obj [("a", .num 1)]) rfl rfl rfl).2

/-- C6: for every validation error whose cause list has exactly two causes,
the logged error message is the top-level message followed by the first and
then the second cause message, joined with single spaces. -/
theorem claim6_two_cause_message_single_spaces
    (env : Env) (fs : Files) (input output content : String) (doc : Json)
    (m c1 c2 : String)
    (hf : lookupFile fs input = some content)
    (hparse : env.parse content = some doc)
    (ht : env.transform doc = .error ⟨m, [c1, c2]⟩) :
    (transform_template env fs input output).logs.head? =
      some (.error (m ++ " " ++ c1 ++ " " ++ c2)) := by
  simp [transform_template, hf, hparse, ht]

/-- C6 witness. -/
theorem claim6_witness :
    (transform_template envValErr fsBase "template.yaml"
        "transformed-template.json").logs.head? =
      some (.error "top c1 c2") :=
  claim6_two_cause_message_single_spaces envValErr fsBase "template.yaml"
    "transformed-template.json" "Resources:" (.obj []) "top" "c1" "c2"
    rfl rfl rfl

/-- C8: whenever `--template-file` is absent from the argument vector the
parsed options keep the default template path `template.yaml`; whenever
`--output-template` is absent they keep `transformed-template.json`;
whenever `--verbose` is absent the flag stays at its `false` default; and
the positional `command` is optional (an empty argument vector parses,
with no command). -/
theorem claim8_parser_defaults (argv : List String) (o : Options)
    (h : parse_args argv = some o) :
    ("--template-file" ∉ argv → o.template_file = "template.yaml") ∧
    ("--output-template" ∉ argv →
      o.output_template = "transformed-template.json") ∧
    ("--verbose" ∉ argv → o.verbose = false) ∧
    parse_args [] = some defaultOptions ∧ defaultOptions.command = none := by
  refine ⟨?_, ?_, ?_, rfl, rfl⟩
  · intro hm
    exact parseLoop_template_file argv none defaultOptions o h hm (by simp)
  · intro hm
    exact parseLoop_output_template argv none defaultOptions o h hm (by simp)
  · intro hm
    exact parseLoop_verbose argv none defaultOptions o h hm

/-- C8 witness: a vector that only selects the `deploy` sub-command leaves
all three defaults in place. -/
theorem claim8_witness :
    ("--template-file" ∉ (["deploy"] : List String) →
      optsDeploy.template_file = "template.yaml") ∧
    ("--output-template" ∉ (["deploy"] : List String) →
      optsDeploy.output_template = "transformed-template.json") ∧
    ("--verbose" ∉ (["deploy"] : List String) → optsDeploy.verbose = false) ∧
    parse_args [] = some defaultOptions ∧ defaultOptions.command = none :=
  claim8_parser_defaults ["deploy"] optsDeploy (by decide)

end SamTranslate
